import Mathlib

/-!
# Storage factory construction (storage/register.go)

A shallow embedding of `NewStorageFactory` and `newLogger`.

* Every external collaborator (configor, the mysql and pgx drivers, gorm, the
  methods of `Config` that live outside this file) is a field of `Env`.  A Go
  call returning `(value, error)` is a function returning
  `value × Option GoError`; the code looks only at the error component, as
  the source does with `err != nil`.
* The Go result `(storage.StorageFactory, error)` is a pair of two nullable
  values, so that "nil factory" and "nil error" are independent components.
* Every call made during construction is appended to a trace of `Event`s, in
  program order, with the arguments and the returned error where the source
  has them.
* `cfg` is a pointer in the source: `newLogger` may write through it, so the
  embedding of `newLogger` returns the configuration as it stands afterwards
  and `NewStorageFactory` carries on with that value.
-/

namespace Storage

/-! ## Data model -/

/-- A non-nil Go `error` value, identified by its message. -/
structure GoError where
  msg : String
deriving DecidableEq, Repr

/-- The error built by `fmt.Errorf` from an already formatted message. -/
def Errorf (msg : String) : GoError := ⟨msg⟩

/-- Constant `StorageName` (register.go:23). -/
def StorageName : String := "sample-storage-layer"

/-- Constant `defaultLogFileName` (register.go:25). -/
def defaultLogFileName : String := "/var/log/clusterpedia/sample-storage-layer.log"

/-- The exported fields of `lumberjack.Logger`. -/
structure LumberjackLogger where
  Filename : String
  MaxSize : Int
  MaxAge : Int
  MaxBackups : Int
  LocalTime : Bool
  Compress : Bool
deriving DecidableEq, Repr

/-- The `io.Writer` handed to `log.New`: `os.Stdout` or a `*lumberjack.Logger`. -/
inductive Writer where
  | stdout
  | lumberjack (l : LumberjackLogger)
deriving DecidableEq, Repr

/-- Constant `log.LstdFlags` of the Go standard library (`Ldate | Ltime`). -/
def LstdFlags : Int := 3

/-- The value built by `log.New(out, pfx, flag)`. -/
structure LogLogger where
  out : Writer
  pfx : String
  flag : Int
deriving DecidableEq, Repr

/-- The types of the values owned by external packages, and the fields of
`Config` and `LogConfig` that register.go never reads. -/
structure Extern where
  /-- the fields of `LogConfig` other than `Stdout` and `Logger` -/
  LogRest : Type
  /-- the fields of `Config` other than `Type` and `Log` -/
  ConfigRest : Type
  /-- Go `*mysql.Config` -/
  MySQLConfig : Type
  /-- Go `driver.Connector` -/
  Connector : Type
  /-- Go `*pgx.ConnConfig` -/
  PgConfig : Type
  /-- Go `*sql.DB` as returned by `sql.OpenDB` and `stdlib.OpenDB` -/
  SqlConn : Type
  /-- Go `logger.Config` -/
  LoggerConfig : Type
  /-- Go `*gorm.DB` -/
  GormDB : Type
  /-- Go `*sql.DB` as returned by `db.DB()` -/
  SqlDB : Type

/-- The struct behind `cfg.Log`: the two fields register.go reads, and the rest. -/
structure LogConfig (X : Extern) where
  Stdout : Bool
  Logger : Option LumberjackLogger
  rest : X.LogRest

/-- The struct `Config`: the two fields register.go reads (`Type_` is the field
`Type`, a reserved word here), and the rest. -/
structure Config (X : Extern) where
  Type_ : String
  Log : Option (LogConfig X)
  rest : X.ConfigRest

/-- The struct returned by `cfg.getConnPoolConfig()`; `ConnMaxLifetime` is a
`time.Duration`, a count of nanoseconds. -/
structure ConnPoolConfig where
  MaxIdleConns : Int
  MaxOpenConns : Int
  ConnMaxLifetime : Int
deriving DecidableEq, Repr

/-- A `logger.Interface` value: `logger.Discard` or `logger.New(writer, config)`. -/
inductive LoggerInterface (X : Extern) where
  | Discard
  | New (writer : LogLogger) (config : X.LoggerConfig)

/-- A `gorm.Dialector`: `gmysql.New(gmysql.Config{Conn: c})` or
`gpostgres.New(gpostgres.Config{Conn: c})`. -/
inductive Dialector (X : Extern) where
  | mysql (conn : X.SqlConn)
  | postgres (conn : X.SqlConn)

/-- The `gorm.Config` literal passed to `gorm.Open`. -/
structure GormConfig (X : Extern) where
  SkipDefaultTransaction : Bool
  /-- an interface value, `none` when nil -/
  Logger : Option (LoggerInterface X)

/-- The struct `StorageFactory{db}`. -/
structure StorageFactory (X : Extern) where
  db : X.GormDB

/-- One call made during construction.  Calls that return an error carry the
error they returned (`none` for a nil error); the pool setters and `log.New`
carry their argument; `newLogger` marks the entry into this file's own
`newLogger`. -/
inductive Event where
  | configorLoad (path : String) (err : Option GoError)
  | genMySQLConfig (err : Option GoError)
  | mysqlNewConnector (err : Option GoError)
  | sqlOpenDB
  | genPostgresConfig (err : Option GoError)
  | stdlibOpenDB
  | newLogger
  | LoggerConfig (err : Option GoError)
  | logNew (out : Writer)
  | gormOpen (err : Option GoError)
  | dbDB (err : Option GoError)
  | getConnPoolConfig (err : Option GoError)
  | SetMaxIdleConns (n : Int)
  | SetMaxOpenConns (n : Int)
  | SetConnMaxLifetime (d : Int)
  | AutoMigrate (err : Option GoError)
deriving DecidableEq, Repr

/-- The error an event returned, if it returned one. -/
@[simp] def Event.err : Event → Option GoError
  | .configorLoad _ e => e
  | .genMySQLConfig e => e
  | .mysqlNewConnector e => e
  | .genPostgresConfig e => e
  | .LoggerConfig e => e
  | .gormOpen e => e
  | .dbDB e => e
  | .getConnPoolConfig e => e
  | .AutoMigrate e => e
  | .sqlOpenDB => none
  | .stdlibOpenDB => none
  | .newLogger => none
  | .logNew _ => none
  | .SetMaxIdleConns _ => none
  | .SetMaxOpenConns _ => none
  | .SetConnMaxLifetime _ => none

/-- The Go name of the function an event is a call of. -/
@[simp] def Event.name : Event → String
  | .configorLoad _ _ => "configor.Load"
  | .genMySQLConfig _ => "genMySQLConfig"
  | .mysqlNewConnector _ => "mysql.NewConnector"
  | .sqlOpenDB => "sql.OpenDB"
  | .genPostgresConfig _ => "genPostgresConfig"
  | .stdlibOpenDB => "stdlib.OpenDB"
  | .newLogger => "newLogger"
  | .LoggerConfig _ => "LoggerConfig"
  | .logNew _ => "log.New"
  | .gormOpen _ => "gorm.Open"
  | .dbDB _ => "db.DB"
  | .getConnPoolConfig _ => "getConnPoolConfig"
  | .SetMaxIdleConns _ => "SetMaxIdleConns"
  | .SetMaxOpenConns _ => "SetMaxOpenConns"
  | .SetConnMaxLifetime _ => "SetConnMaxLifetime"
  | .AutoMigrate _ => "AutoMigrate"

/-- The external collaborators of register.go.  Each is called at most once
per construction, so a function of its arguments covers every outcome. -/
structure Env (X : Extern) where
  /-- Go `configor.Load(cfg, configPath)`: the loaded `*cfg` and the error -/
  configorLoad : String → Config X × Option GoError
  /-- Go `cfg.genMySQLConfig()` -/
  genMySQLConfig : Config X → X.MySQLConfig × Option GoError
  /-- Go `mysql.NewConnector(mysqlConfig)` -/
  mysqlNewConnector : X.MySQLConfig → X.Connector × Option GoError
  /-- Go `sql.OpenDB(connector)` -/
  sqlOpenDB : X.Connector → X.SqlConn
  /-- Go `cfg.genPostgresConfig()` -/
  genPostgresConfig : Config X → X.PgConfig × Option GoError
  /-- Go `stdlib.OpenDB(*pgconfig)` -/
  stdlibOpenDB : X.PgConfig → X.SqlConn
  /-- Go `cfg.LoggerConfig()` -/
  LoggerConfig : Config X → X.LoggerConfig × Option GoError
  /-- Go `gorm.Open(dialector, &gorm.Config{...})` -/
  gormOpen : Dialector X → GormConfig X → X.GormDB × Option GoError
  /-- Go `db.DB()` -/
  dbDB : X.GormDB → X.SqlDB × Option GoError
  /-- Go `cfg.getConnPoolConfig()` -/
  getConnPoolConfig : Config X → ConnPoolConfig × Option GoError
  /-- Go `db.AutoMigrate(&Resource{})` -/
  AutoMigrate : X.GormDB → Option GoError

/-! ## newLogger (register.go:96-124) -/

/-- What `newLogger(cfg)` leaves behind: the two returned values, `*cfg` after
the call, and the calls it made. -/
structure LoggerResult (X : Extern) where
  logger : Option (LoggerInterface X)
  err : Option GoError
  cfg : Config X
  trace : List Event

/-- Function `newLogger` (register.go:96-124). -/
def newLogger {X : Extern} (env : Env X) (cfg : Config X) : LoggerResult X :=
  match cfg.Log with
  | none => ⟨some LoggerInterface.Discard, none, cfg, []⟩
  | some log =>
    match env.LoggerConfig cfg with
    | (_, some err) => ⟨none, some err, cfg, [Event.LoggerConfig (some err)]⟩
    | (loggerConfig, none) =>
      if log.Stdout then
        ⟨some (LoggerInterface.New ⟨Writer.stdout, "", LstdFlags⟩ loggerConfig), none, cfg,
          [Event.LoggerConfig none, Event.logNew Writer.stdout]⟩
      else
        match log.Logger with
        | none =>
          let lumberjackLogger : LumberjackLogger :=
            ⟨defaultLogFileName, 100, 0, 1, false, false⟩
          ⟨some (LoggerInterface.New ⟨Writer.lumberjack lumberjackLogger, "", LstdFlags⟩
              loggerConfig), none, cfg,
            [Event.LoggerConfig none, Event.logNew (Writer.lumberjack lumberjackLogger)]⟩
        | some p =>
          if p.Filename = "" then
            -- the assignment goes through the pointer held by cfg.Log.Logger
            let lumberjackLogger : LumberjackLogger := { p with Filename := defaultLogFileName }
            ⟨some (LoggerInterface.New ⟨Writer.lumberjack lumberjackLogger, "", LstdFlags⟩
                loggerConfig), none,
              { cfg with Log := some { log with Logger := some lumberjackLogger } },
              [Event.LoggerConfig none, Event.logNew (Writer.lumberjack lumberjackLogger)]⟩
          else
            ⟨some (LoggerInterface.New ⟨Writer.lumberjack p, "", LstdFlags⟩ loggerConfig),
              none, cfg,
              [Event.LoggerConfig none, Event.logNew (Writer.lumberjack p)]⟩

/-! ## NewStorageFactory (register.go:33-94) -/

/-- What `NewStorageFactory(configPath)` leaves behind: the two returned values
and the calls it made. -/
structure FactoryResult (X : Extern) where
  factory : Option (StorageFactory X)
  err : Option GoError
  trace : List Event

/-- Lines 68-93 of `NewStorageFactory`: everything after the `switch`, given the
loaded configuration, the dialector and the calls made so far. -/
def openDatabase {X : Extern} (env : Env X) (cfg : Config X) (dialector : Dialector X)
    (tr : List Event) : FactoryResult X :=
  let lr := newLogger env cfg
  let tr := tr ++ [Event.newLogger] ++ lr.trace
  match lr.err with
  | some err => ⟨none, some err, tr⟩
  | none =>
    match env.gormOpen dialector ⟨true, lr.logger⟩ with
    | (_, some err) => ⟨none, some err, tr ++ [Event.gormOpen (some err)]⟩
    | (db, none) =>
      let tr := tr ++ [Event.gormOpen none]
      match env.dbDB db with
      | (_, some err) => ⟨none, some err, tr ++ [Event.dbDB (some err)]⟩
      | (_, none) =>
        let tr := tr ++ [Event.dbDB none]
        match env.getConnPoolConfig lr.cfg with
        | (_, some err) => ⟨none, some err, tr ++ [Event.getConnPoolConfig (some err)]⟩
        | (connPool, none) =>
          let tr := tr ++ [Event.getConnPoolConfig none,
            Event.SetMaxIdleConns connPool.MaxIdleConns,
            Event.SetMaxOpenConns connPool.MaxOpenConns,
            Event.SetConnMaxLifetime connPool.ConnMaxLifetime]
          match env.AutoMigrate db with
          | some err => ⟨none, some err, tr ++ [Event.AutoMigrate (some err)]⟩
          | none => ⟨some ⟨db⟩, none, tr ++ [Event.AutoMigrate none]⟩

/-- Function `NewStorageFactory` (register.go:33-94). -/
def NewStorageFactory {X : Extern} (env : Env X) (configPath : String) : FactoryResult X :=
  if configPath = "" then
    ⟨none, some (Errorf "configPath should not be empty"), []⟩
  else
    match env.configorLoad configPath with
    | (_, some err) => ⟨none, some err, [Event.configorLoad configPath (some err)]⟩
    | (cfg, none) =>
      let tr := [Event.configorLoad configPath none]
      if cfg.Type_ = "mysql" then
        match env.genMySQLConfig cfg with
        | (_, some err) => ⟨none, some err, tr ++ [Event.genMySQLConfig (some err)]⟩
        | (mysqlConfig, none) =>
          let tr := tr ++ [Event.genMySQLConfig none]
          match env.mysqlNewConnector mysqlConfig with
          | (_, some err) => ⟨none, some err, tr ++ [Event.mysqlNewConnector (some err)]⟩
          | (connector, none) =>
            openDatabase env cfg (Dialector.mysql (env.sqlOpenDB connector))
              (tr ++ [Event.mysqlNewConnector none, Event.sqlOpenDB])
      else if cfg.Type_ = "postgres" then
        match env.genPostgresConfig cfg with
        | (_, some err) => ⟨none, some err, tr ++ [Event.genPostgresConfig (some err)]⟩
        | (pgconfig, none) =>
          openDatabase env cfg (Dialector.postgres (env.stdlibOpenDB pgconfig))
            (tr ++ [Event.genPostgresConfig none, Event.stdlibOpenDB])
      else
        ⟨none, some (Errorf ("not support storage type: " ++ cfg.Type_)), tr⟩

/-! ## Shapes of a construction -/

/-- The possible outcomes of lines 68-93, as a relation between the result of
`newLogger`, the pool configuration handed to the setters, the calls made
before, and the result of the construction: the logger stage failed, or one of
`gorm.Open`, `db.DB`, `getConnPoolConfig`, `AutoMigrate` failed, or all of them
succeeded. -/
def TailShape {X : Extern} (lr : LoggerResult X) (p : ConnPoolConfig) (tr : List Event)
    (r : FactoryResult X) : Prop :=
  (∃ e, lr.err = some e ∧ r.trace = tr ++ Event.newLogger :: lr.trace ∧
      r.factory = none ∧ r.err = some e) ∨
  (lr.err = none ∧
    ((∃ e, r.trace = tr ++ Event.newLogger :: (lr.trace ++ [Event.gormOpen (some e)]) ∧
        r.factory = none ∧ r.err = some e) ∨
     (∃ e, r.trace = tr ++ Event.newLogger ::
          (lr.trace ++ [Event.gormOpen none, Event.dbDB (some e)]) ∧
        r.factory = none ∧ r.err = some e) ∨
     (∃ e, r.trace = tr ++ Event.newLogger ::
          (lr.trace ++ [Event.gormOpen none, Event.dbDB none,
            Event.getConnPoolConfig (some e)]) ∧
        r.factory = none ∧ r.err = some e) ∨
     (∃ e, r.trace = tr ++ Event.newLogger ::
          (lr.trace ++ [Event.gormOpen none, Event.dbDB none, Event.getConnPoolConfig none,
            Event.SetMaxIdleConns p.MaxIdleConns, Event.SetMaxOpenConns p.MaxOpenConns,
            Event.SetConnMaxLifetime p.ConnMaxLifetime, Event.AutoMigrate (some e)]) ∧
        r.factory = none ∧ r.err = some e) ∨
     (r.trace = tr ++ Event.newLogger ::
          (lr.trace ++ [Event.gormOpen none, Event.dbDB none, Event.getConnPoolConfig none,
            Event.SetMaxIdleConns p.MaxIdleConns, Event.SetMaxOpenConns p.MaxOpenConns,
            Event.SetConnMaxLifetime p.ConnMaxLifetime, Event.AutoMigrate none]) ∧
        r.factory.isSome ∧ r.err = none)))

/-- The calls made before the logger is built on the mysql path. -/
def mysqlHead (configPath : String) : List Event :=
  [Event.configorLoad configPath none, Event.genMySQLConfig none,
    Event.mysqlNewConnector none, Event.sqlOpenDB]

/-- The calls made before the logger is built on the postgres path. -/
def postgresHead (configPath : String) : List Event :=
  [Event.configorLoad configPath none, Event.genPostgresConfig none, Event.stdlibOpenDB]

/-- What an event must carry to report a call of lines 68-93 truthfully, for
the configuration `cfg` and the dialector `d`: the error is the one the
collaborator returned at the arguments the source passes, and the setters
carry the fields of the pool configuration returned. -/
def Event.reportsTail {X : Extern} (env : Env X) (cfg : Config X) (d : Dialector X) :
    Event → Prop
  | .newLogger => True
  | .LoggerConfig e => e = (env.LoggerConfig cfg).2 ∧ cfg.Log ≠ none
  | .logNew w => Event.logNew w ∈ (Storage.newLogger env cfg).trace
  | .gormOpen e => e = (env.gormOpen d ⟨true, (Storage.newLogger env cfg).logger⟩).2
  | .dbDB e => e = (env.dbDB (env.gormOpen d ⟨true, (Storage.newLogger env cfg).logger⟩).1).2
  | .getConnPoolConfig e => e = (env.getConnPoolConfig (Storage.newLogger env cfg).cfg).2
  | .SetMaxIdleConns n => n = (env.getConnPoolConfig (Storage.newLogger env cfg).cfg).1.MaxIdleConns
  | .SetMaxOpenConns n => n = (env.getConnPoolConfig (Storage.newLogger env cfg).cfg).1.MaxOpenConns
  | .SetConnMaxLifetime n =>
    n = (env.getConnPoolConfig (Storage.newLogger env cfg).cfg).1.ConnMaxLifetime
  | .AutoMigrate e =>
    e = env.AutoMigrate (env.gormOpen d ⟨true, (Storage.newLogger env cfg).logger⟩).1
  | _ => False

/-- What an event must carry to report a call of `NewStorageFactory` on
`configPath` truthfully. -/
def Event.reports {X : Extern} (env : Env X) (configPath : String) : Event → Prop
  | .configorLoad path e => path = configPath ∧ e = (env.configorLoad configPath).2
  | .genMySQLConfig e => (env.configorLoad configPath).1.Type_ = "mysql" ∧
      e = (env.genMySQLConfig (env.configorLoad configPath).1).2
  | .mysqlNewConnector e => (env.configorLoad configPath).1.Type_ = "mysql" ∧
      e = (env.mysqlNewConnector (env.genMySQLConfig (env.configorLoad configPath).1).1).2
  | .sqlOpenDB => (env.configorLoad configPath).1.Type_ = "mysql"
  | .genPostgresConfig e => (env.configorLoad configPath).1.Type_ = "postgres" ∧
      e = (env.genPostgresConfig (env.configorLoad configPath).1).2
  | .stdlibOpenDB => (env.configorLoad configPath).1.Type_ = "postgres"
  | ev =>
    ((env.configorLoad configPath).1.Type_ = "mysql" ∧
      ev.reportsTail env (env.configorLoad configPath).1
        (Dialector.mysql (env.sqlOpenDB (env.mysqlNewConnector
          (env.genMySQLConfig (env.configorLoad configPath).1).1).1))) ∨
    ((env.configorLoad configPath).1.Type_ = "postgres" ∧
      ev.reportsTail env (env.configorLoad configPath).1
        (Dialector.postgres (env.stdlibOpenDB
          (env.genPostgresConfig (env.configorLoad configPath).1).1)))

/-! ## Concrete configurations and collaborators -/

/-- External values carry no information in the sample runs. -/
@[reducible] def SampleX : Extern := ⟨Unit, Unit, Unit, Unit, Unit, Unit, Unit, Unit, Unit⟩

/-- Collaborators for sample runs: `configor.Load` fills in `cfg`,
`getConnPoolConfig` returns `pool`, and the call named `s` returns the error
`fail s`. -/
def sampleEnv (cfg : Config SampleX) (pool : ConnPoolConfig) (fail : String → Option GoError) :
    Env SampleX where
  configorLoad := fun _ => (cfg, fail "configor.Load")
  genMySQLConfig := fun _ => ((), fail "genMySQLConfig")
  mysqlNewConnector := fun _ => ((), fail "mysql.NewConnector")
  sqlOpenDB := fun _ => ()
  genPostgresConfig := fun _ => ((), fail "genPostgresConfig")
  stdlibOpenDB := fun _ => ()
  LoggerConfig := fun _ => ((), fail "LoggerConfig")
  gormOpen := fun _ _ => ((), fail "gorm.Open")
  dbDB := fun _ => ((), fail "db.DB")
  getConnPoolConfig := fun _ => (pool, fail "getConnPoolConfig")
  AutoMigrate := fun _ => fail "AutoMigrate"

/-- No collaborator fails. -/
def noFailure : String → Option GoError := fun _ => none

/-- Only the call named `stage` fails, with the error `e`. -/
def failAt (stage : String) (e : GoError) : String → Option GoError :=
  fun s => if s = stage then some e else none

/-- The pool limits 5 idle, 10 open, one hour (in nanoseconds). -/
def samplePool : ConnPoolConfig := ⟨5, 10, 3600000000000⟩

/-- A configuration of the given type with the given log section. -/
def sampleConfig (type : String) (log : Option (LogConfig SampleX)) : Config SampleX :=
  ⟨type, log, ()⟩

/-- A rotation policy with an empty file name. -/
def unnamedPolicy : LumberjackLogger := ⟨"", 7, 3, 2, true, false⟩

/-- A rotation policy with a file name of its own. -/
def namedPolicy : LumberjackLogger := ⟨"/tmp/storage.log", 7, 3, 2, true, false⟩

set_option maxHeartbeats 1000000

/-! ## Shape of the calls made by newLogger -/

/-- The three possible call sequences of `newLogger`, with the error returned
in each: nothing called, `LoggerConfig` failed, or `LoggerConfig` succeeded and
`log.New` received a writer. -/
theorem newLogger_cases {X : Extern} (env : Env X) (cfg : Config X) :
    ((newLogger env cfg).err = none ∧ (newLogger env cfg).trace = []) ∨
    (∃ e, (newLogger env cfg).err = some e ∧
      (newLogger env cfg).trace = [Event.LoggerConfig (some e)]) ∨
    (∃ w, (newLogger env cfg).err = none ∧
      (newLogger env cfg).trace = [Event.LoggerConfig none, Event.logNew w]) := by
  unfold newLogger
  repeat' split
  all_goals simp

/-- Lines 68-93 always end in one of the outcomes of `TailShape`; the pool
setters receive the fields of what `getConnPoolConfig` returned for the
configuration as `newLogger` left it. -/
theorem openDatabase_cases {X : Extern} (env : Env X) (cfg : Config X) (d : Dialector X)
    (tr : List Event) :
    TailShape (newLogger env cfg) (env.getConnPoolConfig (newLogger env cfg).cfg).1 tr
      (openDatabase env cfg d tr) := by
  unfold TailShape openDatabase
  cases h : (newLogger env cfg).err
  all_goals simp only [h]
  all_goals repeat' split
  all_goals simp_all

/-- The shape of a whole construction: one of the six early returns, or the
`switch` produced a dialector and lines 68-93 ran. -/
theorem NewStorageFactory_cases {X : Extern} (env : Env X) (configPath : String) :
    (configPath = "" ∧ NewStorageFactory env configPath =
        ⟨none, some (Errorf "configPath should not be empty"), []⟩) ∨
    (configPath ≠ "" ∧
      ((∃ e, NewStorageFactory env configPath =
          ⟨none, some e, [Event.configorLoad configPath (some e)]⟩) ∨
       ((env.configorLoad configPath).2 = none ∧
        (env.configorLoad configPath).1.Type_ ≠ "mysql" ∧
        (env.configorLoad configPath).1.Type_ ≠ "postgres" ∧
        NewStorageFactory env configPath =
          ⟨none, some (Errorf ("not support storage type: " ++
            (env.configorLoad configPath).1.Type_)), [Event.configorLoad configPath none]⟩) ∨
       (∃ e, NewStorageFactory env configPath =
          ⟨none, some e, [Event.configorLoad configPath none, Event.genMySQLConfig (some e)]⟩) ∨
       (∃ e, NewStorageFactory env configPath =
          ⟨none, some e, [Event.configorLoad configPath none, Event.genMySQLConfig none,
            Event.mysqlNewConnector (some e)]⟩) ∨
       (∃ e, NewStorageFactory env configPath =
          ⟨none, some e,
            [Event.configorLoad configPath none, Event.genPostgresConfig (some e)]⟩) ∨
       ((env.configorLoad configPath).2 = none ∧
        ∃ head, (head = mysqlHead configPath ∧ (env.configorLoad configPath).1.Type_ = "mysql" ∨
            head = postgresHead configPath ∧
              (env.configorLoad configPath).1.Type_ = "postgres") ∧
          TailShape (newLogger env (env.configorLoad configPath).1)
            (env.getConnPoolConfig (newLogger env (env.configorLoad configPath).1).cfg).1
            head (NewStorageFactory env configPath)))) := by
  unfold NewStorageFactory
  repeat' split
  all_goals simp_all
  all_goals
    repeat (first | exact openDatabase_cases _ _ _ _ | right)

/-! ## The trace records the calls made -/

/-- The calls recorded by `newLogger` are the calls it made. -/
theorem newLogger_trace_reports {X : Extern} (env : Env X) (cfg : Config X)
    (d : Dialector X) : ∀ ev ∈ (newLogger env cfg).trace, ev.reportsTail env cfg d := by
  intro ev hev
  have hev2 := hev
  unfold newLogger at hev
  cases hl : cfg.Log with
  | none => simp [hl] at hev
  | some log =>
    rcases h : env.LoggerConfig cfg with ⟨v, _ | e1⟩
    · simp only [hl, h] at hev
      repeat' split at hev
      all_goals simp at hev
      all_goals rcases hev with hev | hev
      all_goals subst hev
      all_goals first
        | (simp [Event.reportsTail, h, hl]; done)
        | (simp only [Event.reportsTail]; exact hev2)
    · simp [hl, h] at hev
      subst hev
      simp [Event.reportsTail, h, hl]

/-- The calls recorded by lines 68-93 are the calls made: every event after
those recorded before carries what the collaborator returned. -/
theorem openDatabase_trace_reports {X : Extern} (env : Env X) (cfg : Config X)
    (d : Dialector X) (tr : List Event) :
    ∀ ev ∈ (openDatabase env cfg d tr).trace, ev ∈ tr ∨ ev.reportsTail env cfg d := by
  have hl := newLogger_trace_reports env cfg d
  unfold openDatabase
  cases h : (newLogger env cfg).err
  all_goals simp only [h]
  all_goals repeat' split
  all_goals
    intro ev hev
    simp only [List.mem_append, List.mem_cons, List.mem_singleton, List.not_mem_nil,
      or_false, List.append_assoc, List.cons_append, List.nil_append] at hev
    rcases hev with hev | hev | hev
    · exact Or.inl hev
    · subst hev
      exact Or.inr trivial
    · first
        | exact Or.inr (hl ev hev)
        | (rcases hev with hev | hev
           · exact Or.inr (hl ev hev)
           · right
             revert ev
             simp [Event.reportsTail, or_imp, forall_and, *])

/-- The calls recorded by `NewStorageFactory` are the calls made. -/
theorem NewStorageFactory_trace_reports {X : Extern} (env : Env X) (configPath : String) :
    ∀ ev ∈ (NewStorageFactory env configPath).trace, ev.reports env configPath := by
  unfold NewStorageFactory
  repeat' split
  all_goals intro ev hev
  all_goals
    first
    | (revert ev
       simp [Event.reports, or_imp, forall_and, *]
       done)
    | (rcases openDatabase_trace_reports _ _ _ _ ev hev with h | h
       · clear hev
         revert ev
         simp [Event.reports, or_imp, forall_and, *]
       · cases ev <;> simp_all [Event.reports, Event.reportsTail])

/-! ## Failures end a construction -/

/-- A construction stops at the first call that returns an error: every call
but the last returned no error, and a call that returned the error `e` is the
last one made, with a nil factory and `e` itself returned. -/
theorem run_ends_at_failure {X : Extern} (env : Env X) (configPath : String) :
    (∀ ev ∈ (NewStorageFactory env configPath).trace.dropLast, ev.err = none) ∧
    (∀ ev ∈ (NewStorageFactory env configPath).trace, ∀ e, ev.err = some e →
      (NewStorageFactory env configPath).trace.getLast? = some ev ∧
      (NewStorageFactory env configPath).factory = none ∧
      (NewStorageFactory env configPath).err = some e) := by
  rcases NewStorageFactory_cases env configPath with ⟨_, h⟩ | ⟨_, ⟨e, h⟩ | ⟨_, _, _, h⟩ |
    ⟨e, h⟩ | ⟨e, h⟩ | ⟨e, h⟩ | ⟨_, head, hh, ht⟩⟩
  · simp [h]
  · simp [h]
  · simp [h]
  · simp [h]
  · simp [h]
  · simp [h]
  · unfold TailShape at ht
    rcases ht with ⟨e, h1, h2, h3, h4⟩ | ⟨h1, ⟨e, h2, h3, h4⟩ | ⟨e, h2, h3, h4⟩ |
      ⟨e, h2, h3, h4⟩ | ⟨e, h2, h3, h4⟩ | ⟨h2, h3, h4⟩⟩
    all_goals
      rcases newLogger_cases env (env.configorLoad configPath).1 with
        ⟨g1, g2⟩ | ⟨e1, g1, g2⟩ | ⟨w, g1, g2⟩
    all_goals rcases hh with ⟨hh, _⟩ | ⟨hh, _⟩
    all_goals subst hh
    all_goals simp only [g1, reduceCtorEq, Option.some.injEq] at h1
    all_goals try subst h1
    all_goals simp only [g2, mysqlHead, postgresHead, List.cons_append, List.nil_append] at h2
    all_goals simp only [h2, h3, h4]
    all_goals simp

/-! ## The logger (claims C4, C5, C6, C10) -/

/-- Claim C4: when the Log section is nil, `newLogger` returns `logger.Discard`
with a nil error, makes no call at all (neither `LoggerConfig` nor `log.New`,
so no sink is created or selected) and leaves the configuration as it was. -/
theorem newLogger_nil_log_discards {X : Extern} (env : Env X) (cfg : Config X)
    (hlog : cfg.Log = none) :
    (newLogger env cfg).logger = some LoggerInterface.Discard ∧
    (newLogger env cfg).err = none ∧
    (newLogger env cfg).trace = [] ∧
    (newLogger env cfg).cfg = cfg := by
  unfold newLogger
  simp [hlog]

/-- Witness for C4: a mysql configuration without a log section, with a
`LoggerConfig` that would fail if it were consulted. -/
theorem newLogger_nil_log_discards_witness :
    (sampleConfig "mysql" none).Log = none ∧
    (newLogger (sampleEnv (sampleConfig "mysql" none) samplePool
        (failAt "LoggerConfig" ⟨"bad level"⟩)) (sampleConfig "mysql" none)).logger =
      some LoggerInterface.Discard ∧
    (newLogger (sampleEnv (sampleConfig "mysql" none) samplePool
        (failAt "LoggerConfig" ⟨"bad level"⟩)) (sampleConfig "mysql" none)).err = none :=
  ⟨rfl,
    (newLogger_nil_log_discards (sampleEnv (sampleConfig "mysql" none) samplePool
      (failAt "LoggerConfig" ⟨"bad level"⟩)) (sampleConfig "mysql" none) rfl).1,
    (newLogger_nil_log_discards (sampleEnv (sampleConfig "mysql" none) samplePool
      (failAt "LoggerConfig" ⟨"bad level"⟩)) (sampleConfig "mysql" none) rfl).2.1⟩

/-- Claim C5: with a Log section, `Stdout == false`, no rotation policy supplied
and a successful `LoggerConfig`, the writer handed to `log.New` is a rotating
file writer with Filename "/var/log/clusterpedia/sample-storage-layer.log",
MaxSize 100 and MaxBackups 1 (every other field zero), and the logger returned
is built on it. -/
theorem newLogger_default_rotating_file {X : Extern} (env : Env X) (cfg : Config X)
    (log : LogConfig X) (hlog : cfg.Log = some log) (hstdout : log.Stdout = false)
    (hpolicy : log.Logger = none) (hlc : (env.LoggerConfig cfg).2 = none) :
    (newLogger env cfg).logger = some (LoggerInterface.New
      ⟨Writer.lumberjack ⟨"/var/log/clusterpedia/sample-storage-layer.log", 100, 0, 1,
        false, false⟩, "", LstdFlags⟩ (env.LoggerConfig cfg).1) ∧
    (newLogger env cfg).err = none ∧
    (newLogger env cfg).trace = [Event.LoggerConfig none,
      Event.logNew (Writer.lumberjack ⟨"/var/log/clusterpedia/sample-storage-layer.log",
        100, 0, 1, false, false⟩)] ∧
    (newLogger env cfg).cfg = cfg := by
  unfold newLogger
  simp only [hlog]
  split
  · simp_all
  · rename_i h
    simp [hstdout, hpolicy, defaultLogFileName, h]

/-- Witness for C5: a postgres configuration whose log section has neither
stdout nor a rotation policy. -/
theorem newLogger_default_rotating_file_witness :
    (newLogger (sampleEnv (sampleConfig "postgres" (some ⟨false, none, ()⟩)) samplePool
        noFailure) (sampleConfig "postgres" (some ⟨false, none, ()⟩))).trace =
      [Event.LoggerConfig none,
        Event.logNew (Writer.lumberjack ⟨"/var/log/clusterpedia/sample-storage-layer.log",
          100, 0, 1, false, false⟩)] :=
  (newLogger_default_rotating_file
    (sampleEnv (sampleConfig "postgres" (some ⟨false, none, ()⟩)) samplePool noFailure)
    (sampleConfig "postgres" (some ⟨false, none, ()⟩)) ⟨false, none, ()⟩ rfl rfl rfl rfl).2.2.1

/-- Claim C10: with a Log section, `Stdout == true` and a successful
`LoggerConfig`, the writer handed to `log.New` is `os.Stdout` whatever
`cfg.Log.Logger` holds; no rotating file writer appears in the calls, and the
configuration (the supplied rotation policy included) is left as it was. -/
theorem newLogger_stdout_sink {X : Extern} (env : Env X) (cfg : Config X)
    (log : LogConfig X) (hlog : cfg.Log = some log) (hstdout : log.Stdout = true)
    (hlc : (env.LoggerConfig cfg).2 = none) :
    (newLogger env cfg).logger = some (LoggerInterface.New
      ⟨Writer.stdout, "", LstdFlags⟩ (env.LoggerConfig cfg).1) ∧
    (newLogger env cfg).err = none ∧
    (newLogger env cfg).trace = [Event.LoggerConfig none, Event.logNew Writer.stdout] ∧
    (∀ l, Event.logNew (Writer.lumberjack l) ∉ (newLogger env cfg).trace) ∧
    (newLogger env cfg).cfg = cfg := by
  unfold newLogger
  simp only [hlog]
  split
  · simp_all
  · rename_i h
    simp [hstdout, h]

/-- Witness for C10: stdout is selected although a rotation policy with an empty
file name is supplied, and that policy is still in the configuration afterwards. -/
theorem newLogger_stdout_sink_witness :
    (newLogger (sampleEnv (sampleConfig "mysql" (some ⟨true, some unnamedPolicy, ()⟩))
        samplePool noFailure)
      (sampleConfig "mysql" (some ⟨true, some unnamedPolicy, ()⟩))).trace =
        [Event.LoggerConfig none, Event.logNew Writer.stdout] ∧
    (newLogger (sampleEnv (sampleConfig "mysql" (some ⟨true, some unnamedPolicy, ()⟩))
        samplePool noFailure)
      (sampleConfig "mysql" (some ⟨true, some unnamedPolicy, ()⟩))).cfg =
        sampleConfig "mysql" (some ⟨true, some unnamedPolicy, ()⟩) :=
  ⟨(newLogger_stdout_sink
      (sampleEnv (sampleConfig "mysql" (some ⟨true, some unnamedPolicy, ()⟩)) samplePool
        noFailure)
      (sampleConfig "mysql" (some ⟨true, some unnamedPolicy, ()⟩))
      ⟨true, some unnamedPolicy, ()⟩ rfl rfl rfl).2.2.1,
   (newLogger_stdout_sink
      (sampleEnv (sampleConfig "mysql" (some ⟨true, some unnamedPolicy, ()⟩)) samplePool
        noFailure)
      (sampleConfig "mysql" (some ⟨true, some unnamedPolicy, ()⟩))
      ⟨true, some unnamedPolicy, ()⟩ rfl rfl rfl).2.2.2.2⟩

/-- Counterexample for C6: a rotation policy with an empty Filename is supplied
with `Stdout == false`; after `newLogger` the policy held by the configuration
has the default file name, so the configuration is not what it was. -/
theorem newLogger_keeps_config_counterexample :
    (sampleConfig "mysql" (some ⟨false, some unnamedPolicy, ()⟩)).Log =
      some ⟨false, some unnamedPolicy, ()⟩ ∧
    unnamedPolicy.Filename = "" ∧
    (newLogger (sampleEnv (sampleConfig "mysql" (some ⟨false, some unnamedPolicy, ()⟩))
        samplePool noFailure)
      (sampleConfig "mysql" (some ⟨false, some unnamedPolicy, ()⟩))).cfg =
        sampleConfig "mysql" (some ⟨false,
          some ⟨"/var/log/clusterpedia/sample-storage-layer.log", 7, 3, 2, true, false⟩, ()⟩) ∧
    (newLogger (sampleEnv (sampleConfig "mysql" (some ⟨false, some unnamedPolicy, ()⟩))
        samplePool noFailure)
      (sampleConfig "mysql" (some ⟨false, some unnamedPolicy, ()⟩))).cfg ≠
        sampleConfig "mysql" (some ⟨false, some unnamedPolicy, ()⟩) := by
  refine ⟨rfl, rfl, rfl, ?_⟩
  simp [newLogger, sampleEnv, sampleConfig, noFailure, unnamedPolicy, defaultLogFileName]

/-- Claim C6, amended: with a Log section, `Stdout == false` and a supplied
rotation policy `p`: if `p.Filename` is not empty the configuration is left as
it was and, when `LoggerConfig` succeeds, `p` as supplied is the writer handed
to `log.New`; if `p.Filename` is empty and `LoggerConfig` succeeds, the policy
held by the configuration gets the default file name, every other field of the
configuration keeps its value, and the policy so completed is the writer; if
`LoggerConfig` fails with `e` the configuration is left as it was and no sink
is selected: `newLogger` returns a nil logger with `e`, and `LoggerConfig` is
the only call it made (no `log.New`, with any writer). -/
theorem newLogger_custom_rotation_policy {X : Extern} (env : Env X) (cfg : Config X)
    (log : LogConfig X) (p : LumberjackLogger) (hlog : cfg.Log = some log)
    (hstdout : log.Stdout = false) (hpolicy : log.Logger = some p) :
    (p.Filename ≠ "" →
      (newLogger env cfg).cfg = cfg ∧
      ((env.LoggerConfig cfg).2 = none →
        (newLogger env cfg).logger = some (LoggerInterface.New
          ⟨Writer.lumberjack p, "", LstdFlags⟩ (env.LoggerConfig cfg).1) ∧
        (newLogger env cfg).trace =
          [Event.LoggerConfig none, Event.logNew (Writer.lumberjack p)])) ∧
    (p.Filename = "" → (env.LoggerConfig cfg).2 = none →
      (newLogger env cfg).cfg = ⟨cfg.Type_, some ⟨log.Stdout,
        some ⟨"/var/log/clusterpedia/sample-storage-layer.log", p.MaxSize, p.MaxAge,
          p.MaxBackups, p.LocalTime, p.Compress⟩, log.rest⟩, cfg.rest⟩ ∧
      (newLogger env cfg).logger = some (LoggerInterface.New
        ⟨Writer.lumberjack ⟨"/var/log/clusterpedia/sample-storage-layer.log", p.MaxSize,
          p.MaxAge, p.MaxBackups, p.LocalTime, p.Compress⟩, "", LstdFlags⟩
        (env.LoggerConfig cfg).1) ∧
      (newLogger env cfg).trace = [Event.LoggerConfig none, Event.logNew (Writer.lumberjack
        ⟨"/var/log/clusterpedia/sample-storage-layer.log", p.MaxSize, p.MaxAge,
          p.MaxBackups, p.LocalTime, p.Compress⟩)]) ∧
    ((env.LoggerConfig cfg).2 ≠ none → (newLogger env cfg).cfg = cfg) ∧
    (∀ e, (env.LoggerConfig cfg).2 = some e →
      (newLogger env cfg).cfg = cfg ∧
      (newLogger env cfg).logger = none ∧
      (newLogger env cfg).err = some e ∧
      (newLogger env cfg).trace = [Event.LoggerConfig (some e)] ∧
      ∀ w, Event.logNew w ∉ (newLogger env cfg).trace) := by
  unfold newLogger
  simp only [hlog]
  split
  · rename_i h
    simp [h]
  · rename_i h
    simp only [hstdout, hpolicy, defaultLogFileName, h]
    by_cases hf : p.Filename = ""
    · simp [hf, hstdout]
    · simp [hf]

/-- Witness for C6 amended: a policy with a file name of its own is the writer
and the configuration keeps it; a policy with an empty file name is completed
with the default path; and when `LoggerConfig` fails with "bad level" a policy
with an empty file name is left as it was, no logger is returned and
`LoggerConfig` is the only call made. -/
theorem newLogger_custom_rotation_policy_witness :
    (namedPolicy.Filename ≠ "" ∧
      (newLogger (sampleEnv (sampleConfig "mysql" (some ⟨false, some namedPolicy, ()⟩))
          samplePool noFailure)
        (sampleConfig "mysql" (some ⟨false, some namedPolicy, ()⟩))).cfg =
          sampleConfig "mysql" (some ⟨false, some namedPolicy, ()⟩)) ∧
    (unnamedPolicy.Filename = "" ∧
      (newLogger (sampleEnv (sampleConfig "mysql" (some ⟨false, some unnamedPolicy, ()⟩))
          samplePool noFailure)
        (sampleConfig "mysql" (some ⟨false, some unnamedPolicy, ()⟩))).trace =
          [Event.LoggerConfig none, Event.logNew (Writer.lumberjack
            ⟨"/var/log/clusterpedia/sample-storage-layer.log", 7, 3, 2, true, false⟩)]) ∧
    ((newLogger (sampleEnv (sampleConfig "mysql" (some ⟨false, some unnamedPolicy, ()⟩))
          samplePool (failAt "LoggerConfig" ⟨"bad level"⟩))
        (sampleConfig "mysql" (some ⟨false, some unnamedPolicy, ()⟩))).cfg =
          sampleConfig "mysql" (some ⟨false, some unnamedPolicy, ()⟩) ∧
      (newLogger (sampleEnv (sampleConfig "mysql" (some ⟨false, some unnamedPolicy, ()⟩))
          samplePool (failAt "LoggerConfig" ⟨"bad level"⟩))
        (sampleConfig "mysql" (some ⟨false, some unnamedPolicy, ()⟩))).logger = none ∧
      (newLogger (sampleEnv (sampleConfig "mysql" (some ⟨false, some unnamedPolicy, ()⟩))
          samplePool (failAt "LoggerConfig" ⟨"bad level"⟩))
        (sampleConfig "mysql" (some ⟨false, some unnamedPolicy, ()⟩))).err =
          some ⟨"bad level"⟩ ∧
      (newLogger (sampleEnv (sampleConfig "mysql" (some ⟨false, some unnamedPolicy, ()⟩))
          samplePool (failAt "LoggerConfig" ⟨"bad level"⟩))
        (sampleConfig "mysql" (some ⟨false, some unnamedPolicy, ()⟩))).trace =
          [Event.LoggerConfig (some ⟨"bad level"⟩)]) :=
  ⟨⟨by decide,
      ((newLogger_custom_rotation_policy
        (sampleEnv (sampleConfig "mysql" (some ⟨false, some namedPolicy, ()⟩)) samplePool
          noFailure)
        (sampleConfig "mysql" (some ⟨false, some namedPolicy, ()⟩))
        ⟨false, some namedPolicy, ()⟩ namedPolicy rfl rfl rfl).1 (by decide)).1⟩,
   ⟨rfl,
      ((newLogger_custom_rotation_policy
        (sampleEnv (sampleConfig "mysql" (some ⟨false, some unnamedPolicy, ()⟩)) samplePool
          noFailure)
        (sampleConfig "mysql" (some ⟨false, some unnamedPolicy, ()⟩))
        ⟨false, some unnamedPolicy, ()⟩ unnamedPolicy rfl rfl rfl).2.1 rfl rfl).2.2⟩,
   ⟨((newLogger_custom_rotation_policy
        (sampleEnv (sampleConfig "mysql" (some ⟨false, some unnamedPolicy, ()⟩)) samplePool
          (failAt "LoggerConfig" ⟨"bad level"⟩))
        (sampleConfig "mysql" (some ⟨false, some unnamedPolicy, ()⟩))
        ⟨false, some unnamedPolicy, ()⟩ unnamedPolicy rfl rfl rfl).2.2.2
        ⟨"bad level"⟩ rfl).1,
    ((newLogger_custom_rotation_policy
        (sampleEnv (sampleConfig "mysql" (some ⟨false, some unnamedPolicy, ()⟩)) samplePool
          (failAt "LoggerConfig" ⟨"bad level"⟩))
        (sampleConfig "mysql" (some ⟨false, some unnamedPolicy, ()⟩))
        ⟨false, some unnamedPolicy, ()⟩ unnamedPolicy rfl rfl rfl).2.2.2
        ⟨"bad level"⟩ rfl).2.1,
    ((newLogger_custom_rotation_policy
        (sampleEnv (sampleConfig "mysql" (some ⟨false, some unnamedPolicy, ()⟩)) samplePool
          (failAt "LoggerConfig" ⟨"bad level"⟩))
        (sampleConfig "mysql" (some ⟨false, some unnamedPolicy, ()⟩))
        ⟨false, some unnamedPolicy, ()⟩ unnamedPolicy rfl rfl rfl).2.2.2
        ⟨"bad level"⟩ rfl).2.2.1,
    ((newLogger_custom_rotation_policy
        (sampleEnv (sampleConfig "mysql" (some ⟨false, some unnamedPolicy, ()⟩)) samplePool
          (failAt "LoggerConfig" ⟨"bad level"⟩))
        (sampleConfig "mysql" (some ⟨false, some unnamedPolicy, ()⟩))
        ⟨false, some unnamedPolicy, ()⟩ unnamedPolicy rfl rfl rfl).2.2.2
        ⟨"bad level"⟩ rfl).2.2.2.1⟩⟩

/-! ## Construction (claims C1, C2, C3, C7, C8, C9) -/

/-- Claim C1: for a non-empty configPath whose configuration loads with a Type
other than "mysql" and "postgres", `NewStorageFactory` returns a nil factory and
the error "not support storage type: <Type>", and the only call it made is
`configor.Load`: no connector, pool, logger, `gorm.Open`, pool setter or
`AutoMigrate` call. -/
theorem unsupported_type_fails_without_connecting {X : Extern} (env : Env X)
    (configPath : String) (hpath : configPath ≠ "")
    (hload : (env.configorLoad configPath).2 = none)
    (hmysql : (env.configorLoad configPath).1.Type_ ≠ "mysql")
    (hpostgres : (env.configorLoad configPath).1.Type_ ≠ "postgres") :
    (NewStorageFactory env configPath).factory = none ∧
    (NewStorageFactory env configPath).err =
      some ⟨"not support storage type: " ++ (env.configorLoad configPath).1.Type_⟩ ∧
    (NewStorageFactory env configPath).trace = [Event.configorLoad configPath none] ∧
    ∀ ev ∈ (NewStorageFactory env configPath).trace,
      ev.name ∉ ["mysql.NewConnector", "sql.OpenDB", "stdlib.OpenDB", "newLogger",
        "gorm.Open", "SetMaxIdleConns", "SetMaxOpenConns", "SetConnMaxLifetime",
        "AutoMigrate"] := by
  unfold NewStorageFactory
  simp only [hpath, if_false]
  split
  · simp_all
  · rename_i h
    simp only [h] at hmysql hpostgres
    simp [hmysql, hpostgres, Errorf, Event.name, h]

/-- Witness for C1: the types "MySQL" (another casing) and "" (empty) are both
refused after `configor.Load` alone. -/
theorem unsupported_type_fails_without_connecting_witness :
    ((NewStorageFactory (sampleEnv (sampleConfig "MySQL" none) samplePool noFailure)
        "storage.yaml").err = some ⟨"not support storage type: MySQL"⟩ ∧
      (NewStorageFactory (sampleEnv (sampleConfig "MySQL" none) samplePool noFailure)
        "storage.yaml").trace = [Event.configorLoad "storage.yaml" none]) ∧
    ((NewStorageFactory (sampleEnv (sampleConfig "" none) samplePool noFailure)
        "storage.yaml").err = some ⟨"not support storage type: "⟩ ∧
      (NewStorageFactory (sampleEnv (sampleConfig "" none) samplePool noFailure)
        "storage.yaml").factory = none) :=
  ⟨⟨(unsupported_type_fails_without_connecting
        (sampleEnv (sampleConfig "MySQL" none) samplePool noFailure) "storage.yaml"
        (by decide) rfl (by decide) (by decide)).2.1,
     (unsupported_type_fails_without_connecting
        (sampleEnv (sampleConfig "MySQL" none) samplePool noFailure) "storage.yaml"
        (by decide) rfl (by decide) (by decide)).2.2.1⟩,
   ⟨(unsupported_type_fails_without_connecting
        (sampleEnv (sampleConfig "" none) samplePool noFailure) "storage.yaml"
        (by decide) rfl (by decide) (by decide)).2.1,
     (unsupported_type_fails_without_connecting
        (sampleEnv (sampleConfig "" none) samplePool noFailure) "storage.yaml"
        (by decide) rfl (by decide) (by decide)).1⟩⟩

/-- Claim C2: construction is all-or-nothing.  `NewStorageFactory` returns either
a factory with a nil error or a nil factory with an error, never both and never
neither; and it returns a factory exactly when the path was not empty, the
`switch` found a supported type and every call made returned no error, which is
exactly when `AutoMigrate` was reached and returned no error. -/
theorem construction_all_or_nothing {X : Extern} (env : Env X) (configPath : String) :
    (((NewStorageFactory env configPath).factory.isSome ∧
        (NewStorageFactory env configPath).err = none) ∨
      ((NewStorageFactory env configPath).factory = none ∧
        (NewStorageFactory env configPath).err.isSome)) ∧
    ((NewStorageFactory env configPath).factory.isSome ↔
      (configPath ≠ "" ∧
        ((env.configorLoad configPath).1.Type_ = "mysql" ∨
          (env.configorLoad configPath).1.Type_ = "postgres") ∧
        ∀ ev ∈ (NewStorageFactory env configPath).trace, ev.err = none)) ∧
    ((NewStorageFactory env configPath).factory.isSome ↔
      Event.AutoMigrate none ∈ (NewStorageFactory env configPath).trace) := by
  rcases NewStorageFactory_cases env configPath with ⟨hp, h⟩ | ⟨hp, ⟨e, h⟩ | ⟨_, hm, hg, h⟩ |
    ⟨e, h⟩ | ⟨e, h⟩ | ⟨e, h⟩ | ⟨_, head, hh, ht⟩⟩
  · subst hp
    simp [h]
  · simp [h]
  · simp [h, hm, hg]
  · simp [h]
  · simp [h]
  · simp [h]
  · unfold TailShape at ht
    rcases ht with ⟨e, h1, h2, h3, h4⟩ | ⟨h1, ⟨e, h2, h3, h4⟩ | ⟨e, h2, h3, h4⟩ |
      ⟨e, h2, h3, h4⟩ | ⟨e, h2, h3, h4⟩ | ⟨h2, h3, h4⟩⟩
    all_goals
      rcases newLogger_cases env (env.configorLoad configPath).1 with
        ⟨g1, g2⟩ | ⟨e1, g1, g2⟩ | ⟨w, g1, g2⟩
    all_goals rcases hh with ⟨hh, ht⟩ | ⟨hh, ht⟩
    all_goals subst hh
    all_goals simp only [g1, reduceCtorEq, Option.some.injEq] at h1
    all_goals try subst h1
    all_goals simp only [g2, mysqlHead, postgresHead, List.cons_append, List.nil_append] at h2
    all_goals simp only [h2, h3, h4]
    all_goals simp [hp, ht]

/-- Claim C8: collaborator errors are surfaced verbatim.  Whenever a call made
during construction returns the error `e`, that call is the last one made (all
earlier calls returned no error, no later stage runs) and `NewStorageFactory`
returns a nil factory together with `e` itself. -/
theorem collaborator_error_returned_verbatim {X : Extern} (env : Env X)
    (configPath : String) :
    (∀ ev ∈ (NewStorageFactory env configPath).trace, ∀ e, ev.err = some e →
      (NewStorageFactory env configPath).trace.getLast? = some ev ∧
      (NewStorageFactory env configPath).factory = none ∧
      (NewStorageFactory env configPath).err = some e) ∧
    (∀ ev ∈ (NewStorageFactory env configPath).trace.dropLast, ev.err = none) :=
  ⟨(run_ends_at_failure env configPath).2, (run_ends_at_failure env configPath).1⟩

/-- Witness for C8: on the mysql path `db.DB` fails with "sql: database is
closed"; that call is the last one made and its error is the one returned. -/
theorem collaborator_error_returned_verbatim_witness :
    Event.dbDB (some ⟨"sql: database is closed"⟩) ∈
      (NewStorageFactory (sampleEnv (sampleConfig "mysql" none) samplePool
        (failAt "db.DB" ⟨"sql: database is closed"⟩)) "storage.yaml").trace ∧
    ((NewStorageFactory (sampleEnv (sampleConfig "mysql" none) samplePool
        (failAt "db.DB" ⟨"sql: database is closed"⟩)) "storage.yaml").trace.getLast? =
        some (Event.dbDB (some ⟨"sql: database is closed"⟩)) ∧
      (NewStorageFactory (sampleEnv (sampleConfig "mysql" none) samplePool
        (failAt "db.DB" ⟨"sql: database is closed"⟩)) "storage.yaml").factory = none ∧
      (NewStorageFactory (sampleEnv (sampleConfig "mysql" none) samplePool
        (failAt "db.DB" ⟨"sql: database is closed"⟩)) "storage.yaml").err =
        some ⟨"sql: database is closed"⟩) :=
  ⟨by decide,
    (collaborator_error_returned_verbatim (sampleEnv (sampleConfig "mysql" none) samplePool
      (failAt "db.DB" ⟨"sql: database is closed"⟩)) "storage.yaml").1
      (Event.dbDB (some ⟨"sql: database is closed"⟩)) (by decide)
      ⟨"sql: database is closed"⟩ rfl⟩

/-- Counterexample for C9: `gorm.Open` failing with "boom" and `AutoMigrate`
failing with "boom" make `NewStorageFactory` return the same error, the bare
"boom", so the returned error does not tell the two stages apart. -/
theorem error_names_stage_counterexample :
    Event.gormOpen (some ⟨"boom"⟩) ∈
      (NewStorageFactory (sampleEnv (sampleConfig "mysql" none) samplePool
        (failAt "gorm.Open" ⟨"boom"⟩)) "storage.yaml").trace ∧
    Event.AutoMigrate (some ⟨"boom"⟩) ∈
      (NewStorageFactory (sampleEnv (sampleConfig "mysql" none) samplePool
        (failAt "AutoMigrate" ⟨"boom"⟩)) "storage.yaml").trace ∧
    (NewStorageFactory (sampleEnv (sampleConfig "mysql" none) samplePool
        (failAt "gorm.Open" ⟨"boom"⟩)) "storage.yaml").err = some ⟨"boom"⟩ ∧
    (NewStorageFactory (sampleEnv (sampleConfig "mysql" none) samplePool
        (failAt "gorm.Open" ⟨"boom"⟩)) "storage.yaml").err =
      (NewStorageFactory (sampleEnv (sampleConfig "mysql" none) samplePool
        (failAt "AutoMigrate" ⟨"boom"⟩)) "storage.yaml").err := by
  decide

/-- Claim C9, amended: the error returned by `NewStorageFactory` carries no
stage context.  When a call fails with `e` in one construction and a call (the
same or another stage) fails with the same `e` in another construction, both
constructions return `e` itself, hence equal errors. -/
theorem stage_errors_returned_bare {X : Extern} (envA envB : Env X)
    (pathA pathB : String) (evA evB : Event) (e : GoError)
    (hA : evA ∈ (NewStorageFactory envA pathA).trace) (hAe : evA.err = some e)
    (hB : evB ∈ (NewStorageFactory envB pathB).trace) (hBe : evB.err = some e) :
    (NewStorageFactory envA pathA).err = some e ∧
    (NewStorageFactory envB pathB).err = some e ∧
    (NewStorageFactory envA pathA).err = (NewStorageFactory envB pathB).err := by
  have a := ((run_ends_at_failure envA pathA).2 evA hA e hAe).2.2
  have b := ((run_ends_at_failure envB pathB).2 evB hB e hBe).2.2
  exact ⟨a, b, a.trans b.symm⟩

/-- Witness for C9 amended: `genPostgresConfig` failing with "boom" in one
construction and `getConnPoolConfig` failing with "boom" in another. -/
theorem stage_errors_returned_bare_witness :
    (NewStorageFactory (sampleEnv (sampleConfig "postgres" none) samplePool
        (failAt "genPostgresConfig" ⟨"boom"⟩)) "a.yaml").err =
      (NewStorageFactory (sampleEnv (sampleConfig "mysql" none) samplePool
        (failAt "getConnPoolConfig" ⟨"boom"⟩)) "b.yaml").err :=
  (stage_errors_returned_bare
    (sampleEnv (sampleConfig "postgres" none) samplePool (failAt "genPostgresConfig" ⟨"boom"⟩))
    (sampleEnv (sampleConfig "mysql" none) samplePool (failAt "getConnPoolConfig" ⟨"boom"⟩))
    "a.yaml" "b.yaml" (Event.genPostgresConfig (some ⟨"boom"⟩))
    (Event.getConnPoolConfig (some ⟨"boom"⟩)) ⟨"boom"⟩
    (by decide) rfl (by decide) rfl).2.2

/-- Claim C7: in every successful construction the pool setters are called
exactly once each, in the order `SetMaxIdleConns`, `SetMaxOpenConns`,
`SetConnMaxLifetime`, with the three fields of what `cfg.getConnPoolConfig()`
returned, unchanged. -/
theorem pool_limits_applied_as_configured {X : Extern} (env : Env X) (configPath : String)
    (hok : (NewStorageFactory env configPath).factory.isSome) :
    (NewStorageFactory env configPath).trace.filter
        (fun ev => ev.name ∈ ["SetMaxIdleConns", "SetMaxOpenConns", "SetConnMaxLifetime"]) =
      [Event.SetMaxIdleConns (env.getConnPoolConfig
          (newLogger env (env.configorLoad configPath).1).cfg).1.MaxIdleConns,
        Event.SetMaxOpenConns (env.getConnPoolConfig
          (newLogger env (env.configorLoad configPath).1).cfg).1.MaxOpenConns,
        Event.SetConnMaxLifetime (env.getConnPoolConfig
          (newLogger env (env.configorLoad configPath).1).cfg).1.ConnMaxLifetime] := by
  rcases NewStorageFactory_cases env configPath with ⟨_, h⟩ | ⟨_, ⟨e, h⟩ | ⟨_, _, _, h⟩ |
    ⟨e, h⟩ | ⟨e, h⟩ | ⟨e, h⟩ | ⟨_, head, hh, ht⟩⟩
  · simp [h] at hok
  · simp [h] at hok
  · simp [h] at hok
  · simp [h] at hok
  · simp [h] at hok
  · simp [h] at hok
  · unfold TailShape at ht
    rcases ht with ⟨e, h1, h2, h3, h4⟩ | ⟨h1, ⟨e, h2, h3, h4⟩ | ⟨e, h2, h3, h4⟩ |
      ⟨e, h2, h3, h4⟩ | ⟨e, h2, h3, h4⟩ | ⟨h2, h3, h4⟩⟩
    · simp [h3] at hok
    · simp [h3] at hok
    · simp [h3] at hok
    · simp [h3] at hok
    · simp [h3] at hok
    · rcases newLogger_cases env (env.configorLoad configPath).1 with
        ⟨g1, g2⟩ | ⟨e1, g1, g2⟩ | ⟨w, g1, g2⟩
      all_goals rcases hh with ⟨hh, _⟩ | ⟨hh, _⟩
      all_goals subst hh
      all_goals simp only [g1, reduceCtorEq] at h1
      all_goals
        simp only [g2, mysqlHead, postgresHead, List.cons_append, List.nil_append] at h2
      all_goals simp only [h2]
      all_goals simp [List.filter, Event.name]

/-- Witness for C7: the limits 5, 10 and one hour are applied as 5, 10 and
3600000000000 ns; with 20 idle and 10 open connections both values are passed
on as they are. -/
theorem pool_limits_applied_as_configured_witness :
    (NewStorageFactory (sampleEnv (sampleConfig "mysql" none) ⟨5, 10, 3600000000000⟩
        noFailure) "storage.yaml").trace.filter
        (fun ev => ev.name ∈ ["SetMaxIdleConns", "SetMaxOpenConns", "SetConnMaxLifetime"]) =
      [Event.SetMaxIdleConns 5, Event.SetMaxOpenConns 10,
        Event.SetConnMaxLifetime 3600000000000] ∧
    (NewStorageFactory (sampleEnv (sampleConfig "postgres" none) ⟨20, 10, 0⟩
        noFailure) "storage.yaml").trace.filter
        (fun ev => ev.name ∈ ["SetMaxIdleConns", "SetMaxOpenConns", "SetConnMaxLifetime"]) =
      [Event.SetMaxIdleConns 20, Event.SetMaxOpenConns 10, Event.SetConnMaxLifetime 0] :=
  ⟨pool_limits_applied_as_configured
      (sampleEnv (sampleConfig "mysql" none) ⟨5, 10, 3600000000000⟩ noFailure)
      "storage.yaml" rfl,
   pool_limits_applied_as_configured
      (sampleEnv (sampleConfig "postgres" none) ⟨20, 10, 0⟩ noFailure) "storage.yaml" rfl⟩

/-- Claim C3: connect before tune before migrate.  `AutoMigrate` is called at
most once; when it is called, the calls made end with a successful `gorm.Open`,
a successful `db.DB`, a successful `getConnPoolConfig`, the three pool setters
and then `AutoMigrate`, none of these occurring earlier; and when `gorm.Open`
fails with `e`, construction fails with `e` and neither `db.DB`,
`getConnPoolConfig`, a pool setter nor `AutoMigrate` is called. -/
theorem connect_before_tune_before_migrate {X : Extern} (env : Env X)
    (configPath : String) :
    (NewStorageFactory env configPath).trace.countP
        (fun ev => ev.name = "AutoMigrate") ≤ 1 ∧
    (∀ e, Event.AutoMigrate e ∈ (NewStorageFactory env configPath).trace →
      ∃ pre a b c, (NewStorageFactory env configPath).trace = pre ++
          [Event.gormOpen none, Event.dbDB none, Event.getConnPoolConfig none,
            Event.SetMaxIdleConns a, Event.SetMaxOpenConns b, Event.SetConnMaxLifetime c,
            Event.AutoMigrate e] ∧
        ∀ ev ∈ pre, ev.name ∉ ["gorm.Open", "db.DB", "getConnPoolConfig",
          "SetMaxIdleConns", "SetMaxOpenConns", "SetConnMaxLifetime", "AutoMigrate"]) ∧
    (∀ e, Event.gormOpen (some e) ∈ (NewStorageFactory env configPath).trace →
      (NewStorageFactory env configPath).factory = none ∧
      (NewStorageFactory env configPath).err = some e ∧
      ∀ ev ∈ (NewStorageFactory env configPath).trace,
        ev.name ∉ ["db.DB", "getConnPoolConfig", "SetMaxIdleConns", "SetMaxOpenConns",
          "SetConnMaxLifetime", "AutoMigrate"]) := by
  refine ⟨?_, fun e0 he => ⟨(NewStorageFactory env configPath).trace.take
    ((NewStorageFactory env configPath).trace.length - 7), ?_⟩, ?_⟩
  all_goals
    rcases NewStorageFactory_cases env configPath with ⟨_, h⟩ | ⟨_, ⟨e, h⟩ | ⟨_, _, _, h⟩ |
      ⟨e, h⟩ | ⟨e, h⟩ | ⟨e, h⟩ | ⟨_, head, hh, ht⟩⟩
  any_goals rw [h] at he
  any_goals rw [h]
  any_goals
    unfold TailShape at ht
    rcases ht with ⟨e, h1, h2, h3, h4⟩ | ⟨h1, ⟨e, h2, h3, h4⟩ | ⟨e, h2, h3, h4⟩ |
      ⟨e, h2, h3, h4⟩ | ⟨e, h2, h3, h4⟩ | ⟨h2, h3, h4⟩⟩
    all_goals
      rcases newLogger_cases env (env.configorLoad configPath).1 with
        ⟨g1, g2⟩ | ⟨e1, g1, g2⟩ | ⟨w, g1, g2⟩
    all_goals rcases hh with ⟨hh, _⟩ | ⟨hh, _⟩
    all_goals subst hh
    all_goals simp only [g1, reduceCtorEq, Option.some.injEq] at h1
    all_goals try subst h1
    all_goals simp only [g2, mysqlHead, postgresHead, List.cons_append, List.nil_append] at h2
    all_goals try rw [h2] at he
    all_goals simp only [h2, h3, h4]
    all_goals clear h2 h3 h4 g2
  any_goals simp at he
  any_goals subst he
  all_goals simp

/-- Witness for C3: a mysql configuration whose `gorm.Open` fails with "dial
tcp: no route to host"; construction fails with that error and no pool setter
or `AutoMigrate` call is made.  With no failure, `AutoMigrate` comes last,
right after the three setters. -/
theorem connect_before_tune_before_migrate_witness :
    (Event.gormOpen (some ⟨"dial tcp: no route to host"⟩) ∈
        (NewStorageFactory (sampleEnv (sampleConfig "mysql" none) samplePool
          (failAt "gorm.Open" ⟨"dial tcp: no route to host"⟩)) "storage.yaml").trace ∧
      (NewStorageFactory (sampleEnv (sampleConfig "mysql" none) samplePool
          (failAt "gorm.Open" ⟨"dial tcp: no route to host"⟩)) "storage.yaml").err =
        some ⟨"dial tcp: no route to host"⟩ ∧
      ∀ ev ∈ (NewStorageFactory (sampleEnv (sampleConfig "mysql" none) samplePool
          (failAt "gorm.Open" ⟨"dial tcp: no route to host"⟩)) "storage.yaml").trace,
        ev.name ∉ ["db.DB", "getConnPoolConfig", "SetMaxIdleConns", "SetMaxOpenConns",
          "SetConnMaxLifetime", "AutoMigrate"]) ∧
    (Event.AutoMigrate none ∈
        (NewStorageFactory (sampleEnv (sampleConfig "mysql" none) samplePool noFailure)
          "storage.yaml").trace ∧
      ∃ pre a b c,
        (NewStorageFactory (sampleEnv (sampleConfig "mysql" none) samplePool noFailure)
          "storage.yaml").trace = pre ++
          [Event.gormOpen none, Event.dbDB none, Event.getConnPoolConfig none,
            Event.SetMaxIdleConns a, Event.SetMaxOpenConns b, Event.SetConnMaxLifetime c,
            Event.AutoMigrate none] ∧
        ∀ ev ∈ pre, ev.name ∉ ["gorm.Open", "db.DB", "getConnPoolConfig",
          "SetMaxIdleConns", "SetMaxOpenConns", "SetConnMaxLifetime", "AutoMigrate"]) :=
  ⟨⟨by decide,
      ((connect_before_tune_before_migrate (sampleEnv (sampleConfig "mysql" none) samplePool
        (failAt "gorm.Open" ⟨"dial tcp: no route to host"⟩)) "storage.yaml").2.2
        ⟨"dial tcp: no route to host"⟩ (by decide)).2⟩,
   ⟨by decide,
      (connect_before_tune_before_migrate (sampleEnv (sampleConfig "mysql" none) samplePool
        noFailure) "storage.yaml").2.1 none (by decide)⟩⟩

end Storage
